import Mathlib

/-!
Verification of the `cost-agent` pipeline (src/run_cost_agent/__init__.py).

The program is a linear four-stage pipeline threaded over a mutable dict
(`user_question`, `cost_data`, `anomaly_detected`, `optimizations`),
followed by a blob upload and an HTTP response.  We embed the pipeline
shallowly: the state dict becomes a record of `Option` fields, the
language model becomes a function argument `llm : String → String`, the
wall clock becomes a `now : String` argument, the blob upload outcome
becomes a `Bool` argument, and the outbound calls are recorded in an
event list.  Python exceptions (`KeyError` from a missing state key, a
storage failure from `upload_blob`) become `Except` errors.
-/

/-- JSON values as produced by Python's `json.loads`: numbers are modelled
as exact rationals (Python ints and floats both map to `num`), objects as
key/value association lists in textual order. -/
inductive Json where
  | null : Json
  | bool (b : Bool) : Json
  | num (q : ℚ) : Json
  | str (s : String) : Json
  | arr (elems : List Json) : Json
  | obj (members : List (String × Json)) : Json
deriving Repr

/-- JSON whitespace, as accepted between tokens by `json.loads`. -/
def isJsonWs (c : Char) : Bool :=
  c = ' ' || c = '\t' || c = '\n' || c = '\r'

/-- Drop leading JSON whitespace. -/
def skipWs : List Char → List Char
  | [] => []
  | c :: cs => if isJsonWs c then skipWs cs else c :: cs

/-- Read a maximal run of decimal digits, returning their value, their
count and the rest of the input. -/
def readDigits : List Char → Nat → Nat → (Nat × Nat × List Char)
  | c :: cs, acc, n =>
      if c.isDigit then readDigits cs (acc * 10 + (c.toNat - 48)) (n + 1)
      else (acc, n, c :: cs)
  | [], acc, n => (acc, n, [])

/-- Parse a strict JSON number (RFC 8259 grammar, the one `json.loads`
enforces: no leading `+`, no leading zeros, a fraction or exponent must
have at least one digit).  Returns the exact rational value
`±digits.digits × 10^±exp`, assembled with integer arithmetic and one
`mkRat`. -/
def parseNumber (cs : List Char) : Option (ℚ × List Char) :=
  let (neg, cs₁) : (Bool × List Char) :=
    match cs with
    | '-' :: rest => (true, rest)
    | _ => (false, cs)
  match cs₁ with
  | c :: _ =>
    if !c.isDigit then none
    else
      let (intVal, intLen, cs₂) := readDigits cs₁ 0 0
      if intLen = 0 then none
      else if c = '0' ∧ intLen > 1 then none
      else
        let (fracVal, fracLen, cs₃) :=
          match cs₂ with
          | '.' :: rest =>
              let (v, n, r) := readDigits rest 0 0
              (v, n, r)
          | _ => (0, 0, cs₂)
        let fracBad : Bool := match cs₂ with | '.' :: _ => fracLen == 0 | _ => false
        if fracBad then none
        else
          let mNat : ℕ := intVal * 10 ^ fracLen + fracVal
          let m : ℤ := if neg then -(mNat : ℤ) else (mNat : ℤ)
          match cs₃ with
          | e :: rest =>
            if e = 'e' ∨ e = 'E' then
              let (esign, rest₁) : (Bool × List Char) :=
                match rest with
                | '+' :: r => (false, r)
                | '-' :: r => (true, r)
                | _ => (false, rest)
              let (expVal, expLen, rest₂) := readDigits rest₁ 0 0
              if expLen = 0 then none
              else if esign then some (mkRat m (10 ^ (fracLen + expVal)), rest₂)
              else some (mkRat (m * ((10 ^ expVal : ℕ) : ℤ)) (10 ^ fracLen), rest₂)
            else some (mkRat m (10 ^ fracLen), cs₃)
          | [] => some (mkRat m (10 ^ fracLen), [])
  | [] => none

/-- Decode the four hex digits of a `\uXXXX` escape. -/
def hexVal (c : Char) : Option Nat :=
  if c.isDigit then some (c.toNat - 48)
  else if 'a' ≤ c ∧ c ≤ 'f' then some (c.toNat - 87)
  else if 'A' ≤ c ∧ c ≤ 'F' then some (c.toNat - 55)
  else none

/-- Parse the body of a JSON string (the opening quote already consumed),
handling the escape sequences `json.loads` accepts and rejecting raw
control characters, as the strict decoder does. -/
def parseStringBody : List Char → List Char → Option (String × List Char)
  | '"' :: rest, acc => some (String.mk acc.reverse, rest)
  | '\\' :: e :: rest, acc =>
      match e with
      | '"' => parseStringBody rest ('"' :: acc)
      | '\\' => parseStringBody rest ('\\' :: acc)
      | '/' => parseStringBody rest ('/' :: acc)
      | 'b' => parseStringBody rest ('\x08' :: acc)
      | 'f' => parseStringBody rest ('\x0c' :: acc)
      | 'n' => parseStringBody rest ('\n' :: acc)
      | 'r' => parseStringBody rest ('\r' :: acc)
      | 't' => parseStringBody rest ('\t' :: acc)
      | 'u' =>
          match rest with
          | a :: b :: c :: d :: rest₁ =>
              match hexVal a, hexVal b, hexVal c, hexVal d with
              | some ha, some hb, some hc, some hd =>
                  let n := ((ha * 16 + hb) * 16 + hc) * 16 + hd
                  parseStringBody rest₁ (Char.ofNat n :: acc)
              | _, _, _, _ => none
          | _ => none
      | _ => none
  | c :: rest, acc =>
      if c.toNat < 32 then none else parseStringBody rest (c :: acc)
  | [], _ => none

mutual

/-- Parse one JSON value; `fuel` bounds the nesting depth (a depth of
`input length + 1` always suffices, since every nesting level consumes at
least one character). -/
def parseValue : Nat → List Char → Option (Json × List Char)
  | 0, _ => none
  | fuel + 1, cs =>
    match skipWs cs with
    | 'n' :: 'u' :: 'l' :: 'l' :: rest => some (Json.null, rest)
    | 't' :: 'r' :: 'u' :: 'e' :: rest => some (Json.bool true, rest)
    | 'f' :: 'a' :: 'l' :: 's' :: 'e' :: rest => some (Json.bool false, rest)
    | '"' :: rest =>
        match parseStringBody rest [] with
        | some (s, rest₁) => some (Json.str s, rest₁)
        | none => none
    | '[' :: rest =>
        (match skipWs rest with
         | ']' :: rest₁ => some (Json.arr [], rest₁)
         | _ =>
           match parseElems fuel rest with
           | some (xs, rest₁) => some (Json.arr xs, rest₁)
           | none => none)
    | '{' :: rest =>
        (match skipWs rest with
         | '}' :: rest₁ => some (Json.obj [], rest₁)
         | _ =>
           match parseMembers fuel rest with
           | some (kvs, rest₁) => some (Json.obj kvs, rest₁)
           | none => none)
    | cs₁ =>
        match parseNumber cs₁ with
        | some (q, rest) => some (Json.num q, rest)
        | none => none

/-- Parse the comma-separated elements of a non-empty array up to the
closing bracket. -/
def parseElems : Nat → List Char → Option (List Json × List Char)
  | 0, _ => none
  | fuel + 1, cs =>
    match parseValue fuel cs with
    | some (x, rest) =>
        (match skipWs rest with
         | ',' :: rest₁ =>
             (match parseElems fuel rest₁ with
              | some (xs, rest₂) => some (x :: xs, rest₂)
              | none => none)
         | ']' :: rest₁ => some ([x], rest₁)
         | _ => none)
    | none => none

/-- Parse the comma-separated `"key": value` members of a non-empty
object up to the closing brace. -/
def parseMembers : Nat → List Char → Option (List (String × Json) × List Char)
  | 0, _ => none
  | fuel + 1, cs =>
    match skipWs cs with
    | '"' :: rest =>
        (match parseStringBody rest [] with
         | some (k, rest₁) =>
             (match skipWs rest₁ with
              | ':' :: rest₂ =>
                  (match parseValue fuel rest₂ with
                   | some (v, rest₃) =>
                       (match skipWs rest₃ with
                        | ',' :: rest₄ =>
                            (match parseMembers fuel rest₄ with
                             | some (kvs, rest₅) => some ((k, v) :: kvs, rest₅)
                             | none => none)
                        | '}' :: rest₄ => some ([(k, v)], rest₄)
                        | _ => none)
                   | none => none)
              | _ => none)
         | none => none)
    | _ => none

end

/-- `json.loads`: parse a complete JSON document, requiring the whole
input to be consumed (up to trailing whitespace); `none` models
`json.JSONDecodeError`. -/
def jsonLoads (s : String) : Option Json :=
  match parseValue (s.toList.length + 1) s.toList with
  | some (j, rest) => if skipWs rest = [] then some j else none
  | none => none

/-- Render a rational as Python renders the corresponding JSON number:
plain integer form when integral, decimal form otherwise (every float has
a finite decimal expansion; the fraction fallback is unreachable for
parsed floats). -/
def decimalRepr (q : ℚ) : String :=
  if q.den = 1 then toString q.num
  else
    match (List.range 31).find? (fun k => 10 ^ k % q.den == 0) with
    | some k =>
        let n := q.num * ((10 ^ k / q.den : ℕ) : ℤ)
        let sign := if n < 0 then "-" else ""
        let ds := toString n.natAbs
        let ds := if ds.length ≤ k then String.mk (List.replicate (k + 1 - ds.length) '0') ++ ds else ds
        sign ++ ds.dropRight k ++ "." ++ ds.takeRight k
    | none => toString q.num ++ "/" ++ toString q.den

/-- One hexadecimal digit. -/
def hexDigit (n : Nat) : Char :=
  if n < 10 then Char.ofNat (48 + n) else Char.ofNat (87 + n)

/-- Escape one character inside a serialized JSON string, as
`json.dumps` does. -/
def jsonEscapeChar (c : Char) : String :=
  if c = '"' then "\\\""
  else if c = '\\' then "\\\\"
  else if c = '\n' then "\\n"
  else if c = '\t' then "\\t"
  else if c = '\r' then "\\r"
  else if c.toNat < 32 then "\\u00" ++ String.mk [hexDigit (c.toNat / 16), hexDigit (c.toNat % 16)]
  else String.singleton c

/-- A serialized JSON string literal. -/
def quoteStr (s : String) : String :=
  "\"" ++ String.join (s.toList.map jsonEscapeChar) ++ "\""

/-- Indentation of `2 * ind` spaces, matching `json.dumps(…, indent=2)`. -/
def pad (ind : Nat) : String :=
  String.mk (List.replicate (2 * ind) ' ')

mutual

/-- `json.dumps(…, indent=2)`: serialize a JSON value at nesting level
`ind`. -/
def dumpsVal (ind : Nat) : Json → String
  | .null => "null"
  | .bool true => "true"
  | .bool false => "false"
  | .num q => decimalRepr q
  | .str s => quoteStr s
  | .arr [] => "[]"
  | .obj [] => "\x7b\x7d"
  | .arr (x :: xs) => "[\n" ++ dumpsElems (ind + 1) (x :: xs) ++ "\n" ++ pad ind ++ "]"
  | .obj (kv :: kvs) => "\x7b\n" ++ dumpsMembers (ind + 1) (kv :: kvs) ++ "\n" ++ pad ind ++ "\x7d"

/-- Serialize array elements, one per line, comma-separated. -/
def dumpsElems (ind : Nat) : List Json → String
  | [] => ""
  | [x] => pad ind ++ dumpsVal ind x
  | x :: y :: xs => pad ind ++ dumpsVal ind x ++ ",\n" ++ dumpsElems ind (y :: xs)

/-- Serialize object members, one per line, comma-separated. -/
def dumpsMembers (ind : Nat) : List (String × Json) → String
  | [] => ""
  | [(k, v)] => pad ind ++ quoteStr k ++ ": " ++ dumpsVal ind v
  | (k, v) :: kv :: kvs => pad ind ++ quoteStr k ++ ": " ++ dumpsVal ind v ++ ",\n" ++ dumpsMembers ind (kv :: kvs)

end

/-- `json.dumps(report, indent=2)` as used by both `save_state_to_blob`
and `main`. -/
def jsonDumps (j : Json) : String :=
  dumpsVal 0 j

/-- A cost observation, the value `fetch_cost_data` stores under
`cost_data`; the float is modelled as an exact rational. -/
structure CostObservation where
  resource : String
  monthly_cost_usd : ℚ
  currency : String
deriving DecidableEq, Repr

/-- The pipeline's state dict: each key is an `Option` field, `none`
meaning the key is absent from the dict. -/
structure PipelineState where
  user_question : Option String
  cost_data : Option CostObservation
  anomaly_detected : Option Bool
  optimizations : Option Json
deriving Repr

/-- Python exceptions the pipeline can raise: `KeyError` from a missing
state key, and a storage failure raised by `upload_blob`. -/
inductive PipeError where
  | keyError (key : String) : PipeError
  | storageError : PipeError
deriving DecidableEq, Repr

/-- Outbound calls performed during a run, recorded for observation:
the prompt sent to the language model and the blob uploaded to
storage. -/
inductive Event where
  | llmCall (prompt : String) : Event
  | blobUpload (name : String) (data : String) : Event
deriving DecidableEq, Repr

/-- `fetch_cost_data`: stores the fixed, simulated cost observation
under `cost_data` and returns the state (the float literal 2.35 is the
exact rational 235/100). -/
def fetch_cost_data (state : PipelineState) : PipelineState :=
  { state with cost_data := some ⟨"Azure Storage Account", mkRat 235 100, "USD"⟩ }

/-- `detect_anomaly`: reads `state["cost_data"]["monthly_cost_usd"]`
(a `KeyError` if `cost_data` is absent) and stores `cost > 5` under
`anomaly_detected`. -/
def detect_anomaly (state : PipelineState) : Except PipeError PipelineState :=
  match state.cost_data with
  | none => .error (.keyError "cost_data")
  | some cd => .ok { state with anomaly_detected := some (decide (cd.monthly_cost_usd > 5)) }

/-- Python's `str()` of the `cost_data` dict, as interpolated into the
prompt f-string. -/
def costDataStr (cd : CostObservation) : String :=
  "\x7b'resource': '" ++ cd.resource ++ "', 'monthly_cost_usd': " ++
    decimalRepr cd.monthly_cost_usd ++ ", 'currency': '" ++ cd.currency ++ "'\x7d"

/-- The prompt f-string of `simulate_optimizations`, verbatim: a
triple-quoted literal opening and closing with a newline, interpolating
`state['cost_data']` and the user question. -/
def buildPrompt (cd : CostObservation) (user_question : String) : String :=
  "\nYou are an Azure cost optimization assistant.\n\nCost data:\n" ++ costDataStr cd ++
  "\n\nUser question:\n" ++ user_question ++
  "\n\nSTRICTLY return a single valid JSON object with the keys:\n- resource\n- recommended_change\n- estimated_monthly_savings\n- risk_level\n"

/-- `simulate_optimizations`: builds the prompt from `state['cost_data']`
(a `KeyError` if absent) and `state.get("user_question", "Explore my
Azure costs")`, invokes the model (the `AzureChatOpenAI` construction and
its fixed deployment configuration have no effect on the state), then
tries `json.loads` on the reply, falling back to
`{"raw_output": raw_text}` on a decode error.  The model is the function
argument `llm`; the one outbound call is recorded as an event. -/
def simulate_optimizations (llm : String → String) (state : PipelineState) :
    List Event × Except PipeError PipelineState :=
  match state.cost_data with
  | none => ([], .error (.keyError "cost_data"))
  | some cd =>
      let user_question := state.user_question.getD "Explore my Azure costs"
      let prompt := buildPrompt cd user_question
      let raw_text := llm prompt
      let opt : Json :=
        match jsonLoads raw_text with
        | some j => j
        | none => Json.obj [("raw_output", Json.str raw_text)]
      ([Event.llmCall prompt], .ok { state with optimizations := some opt })

/-- The final report record built by `generate_report`. -/
structure Report where
  timestamp : String
  cost_data : Option CostObservation
  anomaly_detected : Option Bool
  optimizations : Option Json
deriving Repr

/-- `generate_report`: builds a fresh four-field dict from
`datetime.utcnow().isoformat()` (the `now` argument) and `state.get` on
the three pipeline keys, each `None` (`none`) when absent. -/
def generate_report (now : String) (state : PipelineState) : Report :=
  { timestamp := now
    cost_data := state.cost_data
    anomaly_detected := state.anomaly_detected
    optimizations := state.optimizations }

/-- The `cost_data` dict as a JSON value, for serialization. -/
def costObservationJson (cd : CostObservation) : Json :=
  Json.obj [("resource", Json.str cd.resource),
            ("monthly_cost_usd", Json.num cd.monthly_cost_usd),
            ("currency", Json.str cd.currency)]

/-- The report dict as a JSON value (`None` serializes as `null`). -/
def reportJson (r : Report) : Json :=
  Json.obj [("timestamp", Json.str r.timestamp),
            ("cost_data", (r.cost_data.map costObservationJson).getD Json.null),
            ("anomaly_detected", (r.anomaly_detected.map Json.bool).getD Json.null),
            ("optimizations", r.optimizations.getD Json.null)]

/-- `save_state_to_blob`: serializes the report with
`json.dumps(report, indent=2)` and uploads it under
`agent-report-<utcnow>.json` (the upload call takes its own timestamp,
`nowBlob`).  `uploadOk` models whether the storage call succeeds; a
failure raises (no try/except anywhere around it). -/
def save_state_to_blob (uploadOk : Bool) (nowBlob : String) (report : Report) :
    List Event × Except PipeError Unit :=
  let blob_name := "agent-report-" ++ nowBlob ++ ".json"
  if uploadOk then ([Event.blobUpload blob_name (jsonDumps (reportJson report))], .ok ())
  else ([], .error .storageError)

/-- An inbound HTTP request: its query parameters. -/
structure HttpRequest where
  params : List (String × String)
deriving Repr

/-- `req.params.get(key, default)`. -/
def paramsGet (params : List (String × String)) (key dflt : String) : String :=
  match params.lookup key with
  | some v => v
  | none => dflt

/-- The HTTP response returned by `main`. -/
structure HttpResponse where
  body : String
  mimetype : String
deriving DecidableEq, Repr

namespace CostAgent

/-- `main`: reads the `question` parameter (default "Explore my Azure
costs"), runs the compiled linear graph
`fetch_cost → detect_anomaly → optimize → report` on the initial state
`{"user_question": user_question}`, uploads the result via
`save_state_to_blob`, and returns it as `json.dumps(result, indent=2)`
with mimetype `application/json`.  An error from any stage or from the
upload propagates (no handler) and the run ends with that error instead
of a response. -/
def main (llm : String → String) (uploadOk : Bool) (now nowBlob : String) (req : HttpRequest) :
    List Event × Except PipeError HttpResponse :=
  let user_question := paramsGet req.params "question" "Explore my Azure costs"
  let s₀ : PipelineState :=
    { user_question := some user_question, cost_data := none,
      anomaly_detected := none, optimizations := none }
  let s₁ := fetch_cost_data s₀
  match detect_anomaly s₁ with
  | .error e => ([], .error e)
  | .ok s₂ =>
      let (evs₁, r₃) := simulate_optimizations llm s₂
      match r₃ with
      | .error e => (evs₁, .error e)
      | .ok s₃ =>
          let result := generate_report now s₃
          let (evs₂, r₄) := save_state_to_blob uploadOk nowBlob result
          match r₄ with
          | .error e => (evs₁ ++ evs₂, .error e)
          | .ok _ =>
              (evs₁ ++ evs₂,
               .ok { body := jsonDumps (reportJson result), mimetype := "application/json" })

end CostAgent

/-- The four keys of the structured `OptimizationResult` shape named by
the specification. -/
def structuredKeys : List String :=
  ["resource", "recommended_change", "estimated_monthly_savings", "risk_level"]

/-- Modelled from the spec: the structured `OptimizationResult` shape —
an object whose key set is exactly
`{resource, recommended_change, estimated_monthly_savings, risk_level}`. -/
def isStructuredShape : Json → Bool
  | Json.obj kvs =>
      structuredKeys.all (fun k => (kvs.map Prod.fst).contains k) &&
      (kvs.map Prod.fst).all (fun k => structuredKeys.contains k)
  | _ => false

/-- Modelled from the spec: the fallback `OptimizationResult` shape —
the wrapper object `{raw_output: text}`. -/
def isRawOutputShape : Json → Bool
  | Json.obj [(k, Json.str _)] => k == "raw_output"
  | _ => false

/-- A concrete mid-pipeline state (after `fetch_cost_data`), used to
evaluate the frame property of the stages. -/
def frameS : PipelineState :=
  ⟨some "q", some ⟨"Azure Storage Account", mkRat 235 100, "USD"⟩, none, none⟩

/-- The state `detect_anomaly` produces from `frameS`. -/
def frameS₂ : PipelineState :=
  ⟨some "q", some ⟨"Azure Storage Account", mkRat 235 100, "USD"⟩, some false, none⟩

/-- The state `simulate_optimizations` produces from `frameS` when the
model replies `"hi"`. -/
def frameS₃ : PipelineState :=
  ⟨some "q", some ⟨"Azure Storage Account", mkRat 235 100, "USD"⟩, none,
   some (Json.obj [("raw_output", Json.str "hi")])⟩

/-- The parser accepts the specification's sample structured reply and
yields exactly the four advertised members. -/
theorem jsonLoads_structured_sample :
    jsonLoads "\x7b\"resource\":\"X\",\"recommended_change\":\"Y\",\"estimated_monthly_savings\":1.2,\"risk_level\":\"low\"\x7d" =
      some (Json.obj [("resource", Json.str "X"), ("recommended_change", Json.str "Y"),
                      ("estimated_monthly_savings", Json.num (mkRat 12 10)), ("risk_level", Json.str "low")]) := by
  rfl

/-- The parser rejects the specification's sample non-JSON reply. -/
theorem jsonLoads_plain_text_sample : jsonLoads "I cannot help" = none := by
  rfl

/-- C1: when `cost_data` is present, `detect_anomaly` returns the state
with `anomaly_detected` set, true iff `monthly_cost_usd > 5`, and in
particular false at exactly 5. -/
theorem detect_anomaly_threshold (s : PipelineState) (cd : CostObservation)
    (h : s.cost_data = some cd) :
    ∃ b : Bool, detect_anomaly s = .ok { s with anomaly_detected := some b } ∧
      (b = true ↔ cd.monthly_cost_usd > 5) ∧
      (cd.monthly_cost_usd = 5 → b = false) := by
  obtain ⟨uq, cdf, ad, opt⟩ := s
  simp only [PipelineState.cost_data] at h
  subst h
  refine ⟨decide (cd.monthly_cost_usd > 5), rfl, by simp, ?_⟩
  intro h5
  simp [h5]

/-- Witness for C1 at the boundary cost of exactly 5: no anomaly. -/
theorem detect_anomaly_threshold_witness :
    ∃ b : Bool, detect_anomaly ⟨none, some ⟨"r", 5, "USD"⟩, none, none⟩ =
        .ok ⟨none, some ⟨"r", 5, "USD"⟩, some b, none⟩ ∧
      (b = true ↔ (⟨"r", 5, "USD"⟩ : CostObservation).monthly_cost_usd > 5) ∧
      ((⟨"r", 5, "USD"⟩ : CostObservation).monthly_cost_usd = 5 → b = false) :=
  detect_anomaly_threshold ⟨none, some ⟨"r", 5, "USD"⟩, none, none⟩ ⟨"r", 5, "USD"⟩ rfl

/-- C2: `fetch_cost_data` always succeeds and returns its input with
`cost_data` set to the fixed stub observation, whatever the input held;
determinism is immediate since it is a function of the state alone. -/
theorem fetch_cost_data_fixed (s : PipelineState) :
    fetch_cost_data s =
      { s with cost_data := some ⟨"Azure Storage Account", mkRat 235 100, "USD"⟩ } := by
  rfl

/-- C6: `generate_report` builds exactly the four-field record
`{timestamp, cost_data, anomaly_detected, optimizations}`, copying each
pipeline key's value and leaving a field `none` (serialized `null`) when
the key is absent, never erroring; the input state is returned untouched
(the function is pure and constructs a fresh record). -/
theorem generate_report_fields (now : String) (s : PipelineState) :
    generate_report now s =
      { timestamp := now, cost_data := s.cost_data,
        anomaly_detected := s.anomaly_detected, optimizations := s.optimizations } := by
  rfl

/-- C9: `detect_anomaly` fails with the `cost_data` key error exactly
when `cost_data` is absent, and returns a result whenever it is
present. -/
theorem detect_anomaly_missing_key (s : PipelineState) :
    (s.cost_data = none → detect_anomaly s = .error (PipeError.keyError "cost_data")) ∧
    (∀ cd, s.cost_data = some cd → ∃ s', detect_anomaly s = .ok s') := by
  obtain ⟨uq, cdf, ad, opt⟩ := s
  constructor
  · intro h
    simp only [PipelineState.cost_data] at h
    subst h
    rfl
  · intro cd h
    simp only [PipelineState.cost_data] at h
    subst h
    exact ⟨_, rfl⟩

/-- Witness for C9: the error on an empty state, the success on a state
with `cost_data` present. -/
theorem detect_anomaly_missing_key_witness :
    detect_anomaly ⟨none, none, none, none⟩ = .error (PipeError.keyError "cost_data") ∧
    ∃ s', detect_anomaly ⟨none, some ⟨"r", 1, "USD"⟩, none, none⟩ = .ok s' := by
  have h₁ := detect_anomaly_missing_key ⟨none, none, none, none⟩
  have h₂ := detect_anomaly_missing_key ⟨none, some ⟨"r", 1, "USD"⟩, none, none⟩
  exact ⟨h₁.1 rfl, h₂.2 ⟨"r", 1, "USD"⟩ rfl⟩

/-- C3: whatever text the model replies, `simulate_optimizations`
returns normally with `optimizations` set: to the parsed value when the
reply is valid JSON, and to the fallback `{"raw_output": <verbatim
reply>}` when parsing fails — the `except json.JSONDecodeError` branch
absorbs every parse failure, so the stage never raises. -/
theorem simulate_optimizations_reply_handling (reply : String) (s : PipelineState)
    (cd : CostObservation) (h : s.cost_data = some cd) :
    ∃ s', (simulate_optimizations (fun _ => reply) s).2 = .ok s' ∧
      ((∃ j, jsonLoads reply = some j ∧ s'.optimizations = some j) ∨
       (jsonLoads reply = none ∧
        s'.optimizations = some (Json.obj [("raw_output", Json.str reply)]))) := by
  obtain ⟨uq, cdf, ad, opt⟩ := s
  simp only [PipelineState.cost_data] at h
  subst h
  refine ⟨_, rfl, ?_⟩
  cases hj : jsonLoads reply with
  | none => exact Or.inr ⟨rfl, by simp [hj]⟩
  | some j => exact Or.inl ⟨j, rfl, by simp [hj]⟩

/-- Witness for C3 on the specification's sample non-JSON reply. -/
theorem simulate_optimizations_reply_handling_witness :
    ∃ s', (simulate_optimizations (fun _ => "I cannot help")
        ⟨some "q", some ⟨"Azure Storage Account", mkRat 235 100, "USD"⟩, none, none⟩).2 = .ok s' ∧
      ((∃ j, jsonLoads "I cannot help" = some j ∧ s'.optimizations = some j) ∨
       (jsonLoads "I cannot help" = none ∧
        s'.optimizations = some (Json.obj [("raw_output", Json.str "I cannot help")]))) :=
  simulate_optimizations_reply_handling "I cannot help"
    ⟨some "q", some ⟨"Azure Storage Account", mkRat 235 100, "USD"⟩, none, none⟩
    ⟨"Azure Storage Account", mkRat 235 100, "USD"⟩ rfl

/-- C4 counterexample: the model reply `"3"` is valid JSON, so the code
stores the bare number 3 under `optimizations` — a value that is neither
an object with the four advertised keys nor the `raw_output` wrapper, a
third shape the claim rules out. -/
theorem optimizations_shape_counterexample :
    (simulate_optimizations (fun _ => "3")
        ⟨none, some ⟨"Azure Storage Account", mkRat 235 100, "USD"⟩, none, none⟩).2 =
      .ok ⟨none, some ⟨"Azure Storage Account", mkRat 235 100, "USD"⟩, none,
           some (Json.num (mkRat 3 1))⟩ ∧
    isStructuredShape (Json.num (mkRat 3 1)) = false ∧
    isRawOutputShape (Json.num (mkRat 3 1)) = false :=
  ⟨rfl, rfl, rfl⟩

/-- C4 amended: the value stored under `optimizations` is either the
JSON value the reply parses to — whatever shape that value has, not
necessarily an object with the four advertised keys — or the fallback
wrapper `{"raw_output": <reply>}`. -/
theorem simulate_optimizations_tagged_union (reply : String) (s : PipelineState)
    (cd : CostObservation) (h : s.cost_data = some cd) (s' : PipelineState)
    (h' : (simulate_optimizations (fun _ => reply) s).2 = .ok s') :
    (∃ j, jsonLoads reply = some j ∧ s'.optimizations = some j) ∨
    s'.optimizations = some (Json.obj [("raw_output", Json.str reply)]) := by
  obtain ⟨uq, cdf, ad, opt⟩ := s
  simp only [PipelineState.cost_data] at h
  subst h
  have h'' : Except.ok (ε := PipeError)
      (⟨uq, some cd, ad, some (match jsonLoads reply with
        | some j => j
        | none => Json.obj [("raw_output", Json.str reply)])⟩ : PipelineState) = .ok s' := h'
  injection h'' with he
  subst he
  cases hj : jsonLoads reply with
  | none => exact Or.inr (by simp [hj])
  | some j => exact Or.inl ⟨j, rfl, by simp [hj]⟩

/-- Witness for the amended C4 at the reply `"3"`: the stored value is
the parsed bare number. -/
theorem simulate_optimizations_tagged_union_witness :
    (∃ j, jsonLoads "3" = some j ∧
        (some (Json.num (mkRat 3 1)) : Option Json) = some j) ∨
    (some (Json.num (mkRat 3 1)) : Option Json) =
        some (Json.obj [("raw_output", Json.str "3")]) :=
  simulate_optimizations_tagged_union "3"
    ⟨none, some ⟨"Azure Storage Account", mkRat 235 100, "USD"⟩, none, none⟩
    ⟨"Azure Storage Account", mkRat 235 100, "USD"⟩ rfl
    ⟨none, some ⟨"Azure Storage Account", mkRat 235 100, "USD"⟩, none,
     some (Json.num (mkRat 3 1))⟩ rfl

/-- C5: when the blob upload fails, nothing catches the storage error:
`main` ends with that error and produces no response, even though the
report had already been computed (the pipeline stages all succeeded and
only the persist step failed). -/
theorem storage_failure_aborts (llm : String → String) (now nowBlob : String)
    (req : HttpRequest) :
    (CostAgent.main llm false now nowBlob req).2 = .error PipeError.storageError := by
  rfl

/-- C7: when the request carries no `question` parameter, the prompt sent
to the model is the one built from the default question "Explore my Azure
costs", and that default text occurs verbatim inside the prompt. -/
theorem default_question_prompt (llm : String → String) (uploadOk : Bool)
    (now nowBlob : String) (req : HttpRequest)
    (h : req.params.lookup "question" = none) :
    Event.llmCall (buildPrompt ⟨"Azure Storage Account", mkRat 235 100, "USD"⟩
        "Explore my Azure costs") ∈ (CostAgent.main llm uploadOk now nowBlob req).1 ∧
    (∃ pre post, buildPrompt ⟨"Azure Storage Account", mkRat 235 100, "USD"⟩
        "Explore my Azure costs" = pre ++ "Explore my Azure costs" ++ post) := by
  constructor
  · cases uploadOk <;>
      simp [CostAgent.main, paramsGet, h, fetch_cost_data, detect_anomaly,
            simulate_optimizations, save_state_to_blob]
  · exact ⟨"\nYou are an Azure cost optimization assistant.\n\nCost data:\n" ++
        costDataStr ⟨"Azure Storage Account", mkRat 235 100, "USD"⟩ ++ "\n\nUser question:\n",
      "\n\nSTRICTLY return a single valid JSON object with the keys:\n- resource\n- recommended_change\n- estimated_monthly_savings\n- risk_level\n",
      by simp [buildPrompt, String.append_assoc]⟩

/-- Witness for C7 on a request with an empty parameter list. -/
theorem default_question_prompt_witness :
    Event.llmCall (buildPrompt ⟨"Azure Storage Account", mkRat 235 100, "USD"⟩
        "Explore my Azure costs") ∈ (CostAgent.main (fun _ => "x") true "A" "B" ⟨[]⟩).1 ∧
    (∃ pre post, buildPrompt ⟨"Azure Storage Account", mkRat 235 100, "USD"⟩
        "Explore my Azure costs" = pre ++ "Explore my Azure costs" ++ post) :=
  default_question_prompt (fun _ => "x") true "A" "B" ⟨[]⟩ rfl

/-- C8: each state-threading stage writes exactly its own key —
`fetch_cost_data` writes `cost_data`, `detect_anomaly` writes
`anomaly_detected`, `simulate_optimizations` writes `optimizations` —
and leaves the other keys exactly as found, so the set of populated keys
grows monotonically along the chain. -/
theorem stage_frame (llm : String → String) (s s₂ s₃ : PipelineState) :
    ((fetch_cost_data s).user_question = s.user_question ∧
     (fetch_cost_data s).anomaly_detected = s.anomaly_detected ∧
     (fetch_cost_data s).optimizations = s.optimizations ∧
     (fetch_cost_data s).cost_data.isSome = true) ∧
    (detect_anomaly s = .ok s₂ →
      s₂.user_question = s.user_question ∧ s₂.cost_data = s.cost_data ∧
      s₂.optimizations = s.optimizations ∧ s₂.anomaly_detected.isSome = true) ∧
    ((simulate_optimizations llm s).2 = .ok s₃ →
      s₃.user_question = s.user_question ∧ s₃.cost_data = s.cost_data ∧
      s₃.anomaly_detected = s.anomaly_detected ∧ s₃.optimizations.isSome = true) := by
  obtain ⟨uq, cdf, ad, opt⟩ := s
  refine ⟨⟨rfl, rfl, rfl, rfl⟩, ?_, ?_⟩
  · intro h
    cases cdf with
    | none => exact absurd h (by simp [detect_anomaly])
    | some cd =>
        have h' : Except.ok (ε := PipeError)
            (⟨uq, some cd, some (decide (cd.monthly_cost_usd > 5)), opt⟩ : PipelineState) =
              .ok s₂ := h
        injection h' with he
        subst he
        exact ⟨rfl, rfl, rfl, rfl⟩
  · intro h
    cases cdf with
    | none => simp [simulate_optimizations] at h
    | some cd =>
        have h' : Except.ok (ε := PipeError)
            (⟨uq, some cd, ad, some (match jsonLoads
                (llm (buildPrompt cd (uq.getD "Explore my Azure costs"))) with
              | some j => j
              | none => Json.obj [("raw_output", Json.str (llm (buildPrompt cd
                  (uq.getD "Explore my Azure costs"))))])⟩ : PipelineState) =
              .ok s₃ := h
        injection h' with he
        subst he
        exact ⟨rfl, rfl, rfl, rfl⟩

/-- Witness for C8 evaluated along a concrete run: `frameS` after the
fetch, `frameS₂` after detection, `frameS₃` after advice on the reply
`"hi"`. -/
theorem stage_frame_witness :
    ((fetch_cost_data frameS).user_question = frameS.user_question ∧
     (fetch_cost_data frameS).anomaly_detected = frameS.anomaly_detected ∧
     (fetch_cost_data frameS).optimizations = frameS.optimizations ∧
     (fetch_cost_data frameS).cost_data.isSome = true) ∧
    (frameS₂.user_question = frameS.user_question ∧ frameS₂.cost_data = frameS.cost_data ∧
     frameS₂.optimizations = frameS.optimizations ∧ frameS₂.anomaly_detected.isSome = true) ∧
    (frameS₃.user_question = frameS.user_question ∧ frameS₃.cost_data = frameS.cost_data ∧
     frameS₃.anomaly_detected = frameS.anomaly_detected ∧ frameS₃.optimizations.isSome = true) := by
  have h := stage_frame (fun _ => "hi") frameS frameS₂ frameS₃
  exact ⟨h.1, h.2.1 rfl, h.2.2 rfl⟩

/-- C10: on a completed request the string uploaded to blob storage and
the HTTP response body are the very same serialization
`json.dumps(result, indent=2)` of the one pipeline result, so the
persisted artifact and the returned artifact cannot disagree. -/
theorem persisted_matches_response (llm : String → String) (now nowBlob : String)
    (req : HttpRequest) :
    ∀ resp : HttpResponse, (CostAgent.main llm true now nowBlob req).2 = .ok resp →
      Event.blobUpload ("agent-report-" ++ nowBlob ++ ".json") resp.body
        ∈ (CostAgent.main llm true now nowBlob req).1 := by
  intro resp h
  have he := Except.ok.inj h
  subst he
  exact List.Mem.tail _ (List.Mem.head _)

/-- Witness for C10 on a concrete request: the upload event carries
exactly the returned response body. -/
theorem persisted_matches_response_witness :
    Event.blobUpload ("agent-report-" ++ "B" ++ ".json")
        (((CostAgent.main (fun _ => "x") true "A" "B" ⟨[]⟩).2.toOption.getD ⟨"", ""⟩).body)
      ∈ (CostAgent.main (fun _ => "x") true "A" "B" ⟨[]⟩).1 :=
  persisted_matches_response (fun _ => "x") "A" "B" ⟨[]⟩
    ((CostAgent.main (fun _ => "x") true "A" "B" ⟨[]⟩).2.toOption.getD ⟨"", ""⟩) (by rfl)
